import Mathlib

/-!
# Verification of the `asynchronous` decorator library

Shallow embedding of `src/asynchronous.py`: a class-based decorator protocol
(`_Decorator`), an asynchronous dispatch strategy (`_AsyncBase`), a
queued-result strategy (`_QueuedResultBase`) and a blocking strategy
(`_BlockingBase`).  Python objects are modelled by an explicit value type,
decorator instances by a record of their attributes, and each overridden
method (`__init__`, `__wrap__`, `__call__`, `__decorator__`, `__get__`) by an
executable Lean function.  Python exceptions are modelled with `Except`;
spawned threads/processes are modelled as `Worker` records whose later
execution is interpreted by `runWorker` / `workerSends`.
-/

/-- Python parameter names used by `_get_insertion_index`
(`SELF = "self"` in the source). -/
def SELF : String := "self"

/-- `CLS = "cls"` in the source. -/
def CLS : String := "cls"

/-- An introspectable Python callable: its `__name__`, `__doc__`, the
positional-parameter part of `inspect.getargspec` (names of declared
positional parameters, excluding `*args` / `**kwargs`), how many of those
have defaults, whether it takes `*args` / `**kwargs`, and its truthiness
(`bool(f)`; plain functions are always truthy, but a callable object may
define a falsy `__bool__` / `__len__`). -/
structure PyFunc where
  name : String
  doc : String
  argspec : List String
  ndefaults : Nat
  varargs : Bool
  varkw : Bool
  truthy : Bool
deriving DecidableEq, Repr

/-- Python values that flow through the library: numbers, strings, `None`,
`multiprocessing.Queue` channels (identified by allocation order), opaque
instances, and callables. -/
inductive PyVal where
  | int : Int → PyVal
  | str : String → PyVal
  | pynone : PyVal
  | chan : Nat → PyVal
  | obj : Nat → PyVal
  | func : PyFunc → PyVal
deriving DecidableEq, Repr

/-- Keyword arguments of a Python call. -/
abbrev Kwargs := List (String × PyVal)

/-- Python exceptions raised by the code paths modelled here. -/
inductive PyError where
  | typeError
  | indexError
  | attributeError
deriving DecidableEq, Repr

/-- Python truthiness (`bool(v)`). -/
def truthy : PyVal → Bool
  | .int n => n != 0
  | .str s => s != ""
  | .pynone => false
  | .chan _ => true
  | .obj _ => true
  | .func f => f.truthy

/-- Truthiness of an attribute that may be unset-as-`None`
(`if self.function:`). -/
def optTruthy : Option PyVal → Bool
  | none => false
  | some v => truthy v

/-- Whether a value is callable.  (The source never checks this; it is used
only to state claims about non-callable inputs.) -/
def isCallable : PyVal → Bool
  | .func _ => true
  | _ => false

/-- `inspect.getargspec(v)[0]`: the declared positional parameter names of a
callable; raises `TypeError` on a non-callable value. -/
def getargspec : PyVal → Except PyError (List String)
  | .func f => .ok f.argspec
  | _ => .error .typeError

/-- Python's `list.insert(i, x)` for a non-negative index: insert before
position `i`, clamping to the end when `i` exceeds the length. -/
def pyInsert (i : Nat) (x : α) (l : List α) : List α :=
  l.take i ++ x :: l.drop i

/-- Does a Python call `f(*args, **kwargs)` bind against `f`'s signature?
`False` means CPython raises `TypeError` when the call is attempted:
too many positional arguments without `*args`, an unknown or
positionally-bound keyword without `**kwargs`, or a required parameter
left unbound. -/
def binds (f : PyFunc) (args : List PyVal) (kwargs : Kwargs) : Bool :=
  let n := args.length
  let p := f.argspec
  (decide (n ≤ p.length) || f.varargs) &&
  kwargs.all (fun kv => (p.contains kv.1 || f.varkw) && !(p.take n).contains kv.1) &&
  ((p.take (p.length - f.ndefaults)).drop n).all (fun nm => kwargs.any (fun kv => kv.1 == nm))

/-- State of a `_Decorator` (and subclasses) instance: the wrapped callable
(`self.function`, `None` until supplied), the `daemon` flag and passthrough
backend options of `_AsyncBase.__init__`, the `QUEUE_INSERTION_INDEX`
attribute (absent until `_QueuedResultBase.__wrap__` sets it) and the
identity metadata `functools.update_wrapper` copies onto the wrapper
(absent until copied). -/
structure Deco where
  function : Option PyVal := none
  daemon : Bool := true
  opts : Kwargs := []
  queueIdx : Option Nat := none
  wrapperName : Option String := none
  wrapperDoc : Option String := none
deriving DecidableEq, Repr

/-- `__name__` of a value, when it has one. -/
def pyName : PyVal → Option String
  | .func f => some f.name
  | _ => none

/-- `__doc__` of a value, when it has one. -/
def pyDoc : PyVal → Option String
  | .func f => some f.doc
  | _ => none

/-- `_Decorator.__wrap__`: store the function and copy its identity
metadata onto the wrapper (`update_wrapper`, which skips attributes the
wrapped object lacks); in Python this mutates `self` and returns it. -/
def baseWrap (d : Deco) (v : PyVal) : Deco :=
  { d with
    function := some v
    wrapperName := (pyName v).orElse fun _ => d.wrapperName
    wrapperDoc := (pyDoc v).orElse fun _ => d.wrapperDoc }

/-- `_QueuedResultBase._get_insertion_index`'s test
`argspec and (argspec[0] == SELF or argspec[0] == CLS)`. -/
def isMethodOrClassmethod : List String → Bool
  | [] => false
  | a :: _ => a == SELF || a == CLS

/-- `_QueuedResultBase._get_insertion_index`: 1 when the first declared
parameter is the conventional receiver name, else 0; propagates the
`TypeError` of `getargspec` on non-callables. -/
def getInsertionIndex (v : PyVal) : Except PyError Nat :=
  match getargspec v with
  | .error e => .error e
  | .ok argspec => .ok (if isMethodOrClassmethod argspec then 1 else 0)

/-- `_QueuedResultBase.__wrap__`: compute and store `QUEUE_INSERTION_INDEX`,
then defer to `_Decorator.__wrap__`. -/
def queuedWrap (d : Deco) (v : PyVal) : Except PyError Deco :=
  match getInsertionIndex v with
  | .error e => .error e
  | .ok idx => .ok (baseWrap { d with queueIdx := some idx } v)

/-- A spawned concurrent unit: the `threading.Thread` /
`multiprocessing.Process` built by `_AsyncBase.__decorator__` with
`target=self.function`, the call arguments, the daemon flag and the
passthrough constructor options.  It is already started; its later
execution is interpreted by `runWorker` / `workerSends`. -/
structure Worker where
  target : Option PyVal
  args : List PyVal
  kwargs : Kwargs
  daemon : Bool
  opts : Kwargs
deriving DecidableEq, Repr

/-- `_AsyncBase.__decorator__`: create, start and return a thread-like
object running `self.function` on the given arguments.  Note that no
argument validation happens here: the worker is returned unconditionally. -/
def asyncDispatch (d : Deco) (args : List PyVal) (kwargs : Kwargs) : Worker :=
  { target := d.function, args := args, kwargs := kwargs
    daemon := d.daemon, opts := d.opts }

/-- What happens inside the spawned unit once it runs: a `None` target does
nothing; a callable target raises `TypeError` inside the unit when the
arguments do not bind (CPython calls `target(*args, **kwargs)` in the new
thread's bootstrap, so the exception never reaches the spawning caller);
a non-callable target likewise raises `TypeError` inside the unit. -/
def runWorker (w : Worker) : Except PyError Unit :=
  match w.target with
  | none => .ok ()
  | some (.func f) => if binds f w.args w.kwargs then .ok () else .error .typeError
  | some _ => .error .typeError

/-- `_QueuedResultBase.__decorator__`: allocate a fresh `Queue` (modelled by
a channel carrying the allocation counter, which is then bumped), insert it
into the positional arguments at `self.QUEUE_INSERTION_INDEX` (an
`AttributeError` if the instance was never wrapped), dispatch, and return
the `(worker, queue)` pair. -/
def queuedDispatch (d : Deco) (cnt : Nat) (args : List PyVal) (kwargs : Kwargs) :
    Except PyError ((Worker × PyVal) × Nat) :=
  match d.queueIdx with
  | none => .error .attributeError
  | some i =>
    let q := PyVal.chan cnt
    .ok ((asyncDispatch d (pyInsert i q args) kwargs, q), cnt + 1)

/-- Interpretation of wrapped-callable bodies: `sends f args kwargs` is the
sequence of values the body of `f` puts on the queue it was handed, when
run with the (queue-augmented) arguments.  The library treats the body as
opaque, so theorems quantify over this interpretation. -/
structure Runtime where
  sends : PyFunc → List PyVal → Kwargs → List PyVal

/-- Values a worker delivers on its injected queue: none unless the target
is a callable whose arguments bind (a binding failure kills the unit before
the body runs). -/
def workerSends (R : Runtime) (w : Worker) : List PyVal :=
  match w.target with
  | some (.func f) => if binds f w.args w.kwargs then R.sends f w.args w.kwargs else []
  | _ => []

/-- `_BlockingBase.__decorator__`: dispatch through the queued-result
strategy, discard the worker handle, and block on `queue.get()` — which
returns the first value the worker puts on the queue, or blocks forever
(`none`) when the worker never sends. -/
def blockingDispatch (R : Runtime) (d : Deco) (cnt : Nat)
    (args : List PyVal) (kwargs : Kwargs) : Except PyError (Option PyVal × Nat) :=
  match queuedDispatch d cnt args kwargs with
  | .error e => .error e
  | .ok ((w, _q), c) => .ok ((workerSends R w).head?, c)

/-- Outcome of `__call__` on a fire-and-forget decorator. -/
inductive AsyncCallResult where
  | dispatched : Worker → AsyncCallResult
  | wrapped : Deco → AsyncCallResult
  | error : PyError → AsyncCallResult
deriving DecidableEq, Repr

/-- `_Decorator.__call__` specialised to `_AsyncBase`: dispatch when
`self.function` is truthy, otherwise wrap `args[0]` (an `IndexError` when
no positional argument was given; keyword arguments are ignored on the wrap
path). -/
def asyncCall (d : Deco) (args : List PyVal) (kwargs : Kwargs) : AsyncCallResult :=
  if optTruthy d.function then .dispatched (asyncDispatch d args kwargs)
  else
    match args with
    | [] => .error .indexError
    | a :: _ => .wrapped (baseWrap d a)

/-- Outcome of `__call__` on a queued-result decorator. -/
inductive QueuedCallResult where
  | dispatched : Worker → PyVal → Nat → QueuedCallResult
  | wrapped : Deco → QueuedCallResult
  | error : PyError → QueuedCallResult
deriving DecidableEq, Repr

/-- `_Decorator.__call__` specialised to `_QueuedResultBase`. -/
def queuedCall (d : Deco) (cnt : Nat) (args : List PyVal) (kwargs : Kwargs) :
    QueuedCallResult :=
  if optTruthy d.function then
    match queuedDispatch d cnt args kwargs with
    | .ok ((w, q), c) => .dispatched w q c
    | .error e => .error e
  else
    match args with
    | [] => .error .indexError
    | a :: _ =>
      match queuedWrap d a with
      | .ok d2 => .wrapped d2
      | .error e => .error e

/-- Outcome of `__call__` on a blocking decorator: the delivered value, an
indefinite block (the callable never sends), a wrap, or an error. -/
inductive BlockingCallResult where
  | got : PyVal → Nat → BlockingCallResult
  | blocksForever : Nat → BlockingCallResult
  | wrapped : Deco → BlockingCallResult
  | error : PyError → BlockingCallResult
deriving DecidableEq, Repr

/-- `_Decorator.__call__` specialised to `_BlockingBase` (which inherits
`_QueuedResultBase.__wrap__`). -/
def blockingCall (R : Runtime) (d : Deco) (cnt : Nat)
    (args : List PyVal) (kwargs : Kwargs) : BlockingCallResult :=
  if optTruthy d.function then
    match blockingDispatch R d cnt args kwargs with
    | .ok (some v, c) => .got v c
    | .ok (none, c) => .blocksForever c
    | .error e => .error e
  else
    match args with
    | [] => .error .indexError
    | a :: _ =>
      match queuedWrap d a with
      | .ok d2 => .wrapped d2
      | .error e => .error e

/-- `_Decorator.__init__` + `_AsyncBase.__init__` for the fire-and-forget
classes: store the function; when it is truthy, wrap it immediately. -/
def asyncInit (f : Option PyVal) (daemon : Bool) (opts : Kwargs) : Deco :=
  let d : Deco := { function := f, daemon := daemon, opts := opts }
  match f with
  | some v => if truthy v then baseWrap d v else d
  | none => d

/-- `__init__` for the queued-result and blocking classes: dynamic dispatch
sends `_Decorator.__init__`'s `self.__wrap__(function)` to
`_QueuedResultBase.__wrap__`. -/
def queuedInit (f : Option PyVal) (daemon : Bool) (opts : Kwargs) :
    Except PyError Deco :=
  let d : Deco := { function := f, daemon := daemon, opts := opts }
  match f with
  | some v => if truthy v then queuedWrap d v else .ok d
  | none => .ok d

/-- Result of `_Decorator.__get__`: the wrapper itself (unbound access) or
`functools.partial(self, instance)` (instance access). -/
inductive GetResult where
  | passthrough : Deco → GetResult
  | bound : Deco → PyVal → GetResult
deriving DecidableEq, Repr

/-- `_Decorator.__get__`: return `self` when accessed without an instance,
else a partial application pre-binding the instance. -/
def dunderGet (d : Deco) (inst : Option PyVal) : GetResult :=
  match inst with
  | none => .passthrough d
  | some i => .bound d i

/-- Invoking the result of `__get__` on a fire-and-forget decorator:
`functools.partial(self, instance)` prepends the instance to the
positional arguments of `__call__`. -/
def invokeBoundAsync (g : GetResult) (args : List PyVal) (kwargs : Kwargs) :
    AsyncCallResult :=
  match g with
  | .passthrough d => asyncCall d args kwargs
  | .bound d i => asyncCall d (i :: args) kwargs

/-! ## Concrete examples used by witnesses and counterexamples -/

/-- A plain one-parameter function `f(a)` (truthy, non-receiver first
parameter). -/
def exF : PyFunc :=
  { name := "f", doc := "plain", argspec := ["a"], ndefaults := 0,
    varargs := false, varkw := false, truthy := true }

/-- A method `m(self, a)`. -/
def exM : PyFunc :=
  { name := "m", doc := "method", argspec := ["self", "a"], ndefaults := 0,
    varargs := false, varkw := false, truthy := true }

/-- A zero-parameter function `z()`. -/
def exZ : PyFunc :=
  { name := "z", doc := "zero", argspec := [], ndefaults := 0,
    varargs := false, varkw := false, truthy := true }

/-- A callable object with a falsy `__bool__` (callable, introspectable,
but `bool(obj)` is `False`). -/
def exFalsy : PyFunc :=
  { name := "f0", doc := "falsy", argspec := [], ndefaults := 0,
    varargs := false, varkw := false, truthy := false }

/-- The decorator state obtained by wrapping `exM` with a queued-result
decorator built from default configuration. -/
def exMWrapped : Deco :=
  { function := some (PyVal.func exM), daemon := true, opts := [],
    queueIdx := some 1, wrapperName := some "m", wrapperDoc := some "method" }

/-- The decorator state obtained by wrapping `exF` with a queued-result
decorator built from default configuration. -/
def exFWrapped : Deco :=
  { function := some (PyVal.func exF), daemon := true, opts := [],
    queueIdx := some 0, wrapperName := some "f", wrapperDoc := some "plain" }

/-! ## Claims -/

/-- Claim C1: for every wrapped callable the channel-insertion index is
computed once at wrap time — `_QueuedResultBase.__wrap__` stores it in
`QUEUE_INSERTION_INDEX` — and equals 1 exactly when the first declared
parameter is named `self` or `cls`, and 0 otherwise, including when
introspection yields no declared parameters; every subsequent dispatch
reads exactly that stored value (dispatch never recomputes or mutates it,
and the dispatch result below is fully determined by the wrap-time index). -/
theorem claim_C1_insertion_index (d d2 : Deco) (f : PyFunc)
    (h : queuedWrap d (.func f) = .ok d2) :
    (d2.queueIdx = some (match f.argspec with
        | [] => 0
        | p :: _ => if p = SELF ∨ p = CLS then 1 else 0)) ∧
    (∀ cnt args kwargs, queuedDispatch d2 cnt args kwargs =
        .ok ((asyncDispatch d2
              (pyInsert (match f.argspec with
                | [] => 0
                | p :: _ => if p = SELF ∨ p = CLS then 1 else 0)
                (PyVal.chan cnt) args) kwargs,
              PyVal.chan cnt), cnt + 1)) := by
  have hidx : (if isMethodOrClassmethod f.argspec then 1 else 0) =
      (match f.argspec with
        | [] => 0
        | p :: _ => if p = SELF ∨ p = CLS then 1 else 0 : Nat) := by
    cases f.argspec with
    | nil => simp [isMethodOrClassmethod]
    | cons p rest => simp [isMethodOrClassmethod, Bool.or_eq_true, beq_iff_eq]
  simp only [queuedWrap, getInsertionIndex, getargspec, Except.ok.injEq] at h
  subst h
  constructor
  · simp [baseWrap, ← hidx]
  · intro cnt args kwargs
    simp [queuedDispatch, baseWrap, ← hidx]

/-- Witness for C1 at the concrete method `m(self, a)`. -/
theorem claim_C1_insertion_index_witness :
    queuedWrap {} (PyVal.func exM) = .ok exMWrapped ∧
    exMWrapped.queueIdx = some 1 :=
  ⟨rfl, by
    have h := claim_C1_insertion_index {} exMWrapped exM rfl
    simpa [exM] using h.1⟩

/-- Claim C2: a call to a queued-result-decorated callable allocates a
fresh one-shot channel (the allocation counter is bumped, and the new
channel differs from every previously allocated one), inserts it into the
positional arguments at the fixed insertion index — leaving the other
positional arguments in order and the keyword arguments unchanged —
dispatches the callable with the augmented arguments, and returns the
(worker handle, channel) pair. -/
theorem claim_C2_queued_call (d : Deco) (i cnt : Nat)
    (args : List PyVal) (kwargs : Kwargs)
    (hfun : optTruthy d.function = true) (hidx : d.queueIdx = some i) :
    queuedCall d cnt args kwargs =
      .dispatched
        { target := d.function
          args := args.take i ++ PyVal.chan cnt :: args.drop i
          kwargs := kwargs
          daemon := d.daemon
          opts := d.opts }
        (PyVal.chan cnt) (cnt + 1) ∧
    (∀ j, j < cnt → PyVal.chan cnt ≠ PyVal.chan j) := by
  constructor
  · simp [queuedCall, hfun, queuedDispatch, hidx, asyncDispatch, pyInsert]
  · intro j hj hc
    simp only [PyVal.chan.injEq] at hc
    omega

/-- Witness for C2: calling the wrapped `f(a)` as `f(1)` with allocation
counter 5. -/
theorem claim_C2_queued_call_witness :
    optTruthy exFWrapped.function = true ∧ exFWrapped.queueIdx = some 0 ∧
    queuedCall exFWrapped 5 [PyVal.int 1] [] =
      .dispatched
        { target := some (PyVal.func exF)
          args := [PyVal.chan 5, PyVal.int 1]
          kwargs := [], daemon := true, opts := [] }
        (PyVal.chan 5) 6 :=
  ⟨by decide, by decide, by
    have h := claim_C2_queued_call exFWrapped 0 5 [PyVal.int 1] []
      (by decide) (by decide)
    simpa [exFWrapped] using h.1⟩

/-- A function `fq(q, a)` written for the queued-result contract: it
declares the channel parameter first, then one payload parameter. -/
def exFq : PyFunc :=
  { name := "fq", doc := "queued", argspec := ["q", "a"], ndefaults := 0,
    varargs := false, varkw := false, truthy := true }

/-- The queued-result wrapper around `exFq` (default configuration). -/
def exFqWrapped : Deco :=
  { function := some (PyVal.func exFq), daemon := true, opts := [],
    queueIdx := some 0, wrapperName := some "fq", wrapperDoc := some "queued" }

/-- A runtime in which every callable body sends exactly `42` on its
queue. -/
def exRuntime : Runtime := ⟨fun _ _ _ => [PyVal.int 42]⟩

/-- Claim C3: a call to a blocking-decorated callable dispatches via the
result-channel strategy (queue injected at the stored index), blocks until
one value is available on the injected channel, and returns exactly that
value — the worker handle is discarded (the result carries only the
delivered value). -/
theorem claim_C3_blocking (R : Runtime) (d : Deco) (f : PyFunc) (i cnt : Nat)
    (args : List PyVal) (kwargs : Kwargs) (v : PyVal) (rest : List PyVal)
    (hf : d.function = some (.func f)) (ht : f.truthy = true)
    (hidx : d.queueIdx = some i)
    (hb : binds f (pyInsert i (PyVal.chan cnt) args) kwargs = true)
    (hs : R.sends f (pyInsert i (PyVal.chan cnt) args) kwargs = v :: rest) :
    blockingCall R d cnt args kwargs = .got v (cnt + 1) := by
  simp [blockingCall, hf, optTruthy, truthy, ht, blockingDispatch,
        queuedDispatch, hidx, workerSends, asyncDispatch, hb, hs]

/-- Witness for C3: blocking call of `fq(1)`, whose body sends `42`. -/
theorem claim_C3_blocking_witness :
    exFqWrapped.function = some (PyVal.func exFq) ∧
    exFqWrapped.queueIdx = some 0 ∧
    binds exFq (pyInsert 0 (PyVal.chan 0) [PyVal.int 1]) [] = true ∧
    exRuntime.sends exFq (pyInsert 0 (PyVal.chan 0) [PyVal.int 1]) [] =
      PyVal.int 42 :: [] ∧
    blockingCall exRuntime exFqWrapped 0 [PyVal.int 1] [] =
      .got (PyVal.int 42) 1 :=
  ⟨rfl, rfl, by decide, rfl,
   claim_C3_blocking exRuntime exFqWrapped exFq 0 0 [PyVal.int 1] []
     (PyVal.int 42) [] rfl rfl rfl (by decide) rfl⟩

/-- The fire-and-forget wrapper around the zero-parameter `z()`. -/
def exZWrapped : Deco :=
  { function := some (PyVal.func exZ), daemon := true, opts := [],
    queueIdx := none, wrapperName := some "z", wrapperDoc := some "zero" }

/-- Counterexample to claim C4: decorate the zero-parameter `z()` with the
fire-and-forget decorator and call it with one argument.  The arguments do
not bind, yet the call raises nothing synchronously — it returns a started
worker handle — and the `TypeError` occurs only inside the spawned
concurrent unit when it runs (CPython invokes the target in the new
thread's bootstrap). -/
theorem claim_C4_spawn_error_cex :
    asyncInit (some (PyVal.func exZ)) true [] = exZWrapped ∧
    asyncCall exZWrapped [PyVal.int 1] [] =
      .dispatched { target := some (PyVal.func exZ), args := [PyVal.int 1],
                    kwargs := [], daemon := true, opts := [] } ∧
    binds exZ [PyVal.int 1] [] = false ∧
    runWorker { target := some (PyVal.func exZ), args := [PyVal.int 1],
                kwargs := [], daemon := true, opts := [] } =
      .error .typeError :=
  ⟨rfl, by decide, by decide, rfl⟩

/-- Amended C4: argument-binding failures are not surfaced at spawn time.
Dispatch always succeeds synchronously, returning the started worker
handle, and when the arguments do not bind the invalid-argument error
occurs inside the spawned concurrent unit when it runs the callable. -/
theorem claim_C4_error_in_worker (d : Deco) (f : PyFunc)
    (args : List PyVal) (kwargs : Kwargs)
    (hf : d.function = some (.func f)) (ht : f.truthy = true)
    (hb : binds f args kwargs = false) :
    asyncCall d args kwargs = .dispatched (asyncDispatch d args kwargs) ∧
    runWorker (asyncDispatch d args kwargs) = .error .typeError := by
  constructor
  · simp [asyncCall, hf, optTruthy, truthy, ht]
  · simp [runWorker, asyncDispatch, hf, hb]

/-- Witness for the amended C4 at `z()` called with one argument. -/
theorem claim_C4_error_in_worker_witness :
    exZWrapped.function = some (PyVal.func exZ) ∧ exZ.truthy = true ∧
    binds exZ [PyVal.int 1] [] = false ∧
    asyncCall exZWrapped [PyVal.int 1] [] =
      .dispatched (asyncDispatch exZWrapped [PyVal.int 1] []) ∧
    runWorker (asyncDispatch exZWrapped [PyVal.int 1] []) =
      .error .typeError :=
  ⟨rfl, rfl, by decide,
   (claim_C4_error_in_worker exZWrapped exZ [PyVal.int 1] [] rfl rfl
     (by decide)).1,
   (claim_C4_error_in_worker exZWrapped exZ [PyVal.int 1] [] rfl rfl
     (by decide)).2⟩

/-- The state a queued-result factory reaches after its deferred wrap of
the falsy callable `exFalsy`. -/
def exFalsyDeferred : Deco :=
  { function := some (PyVal.func exFalsy), daemon := true, opts := [],
    queueIdx := some 0, wrapperName := some "f0", wrapperDoc := some "falsy" }

/-- The state direct decoration of the falsy callable `exFalsy` produces:
the callable is stored but `__wrap__` never runs (`if function:` is
false), so no insertion index and no metadata. -/
def exFalsyDirect : Deco :=
  { function := some (PyVal.func exFalsy), daemon := true, opts := [],
    queueIdx := none, wrapperName := none, wrapperDoc := none }

/-- Counterexample to claim C5: for the falsy callable `f0`, deferred
decoration (configuration first, callable later) produces a fully wrapped
decorator — insertion index stored, identity metadata copied — while
direct decoration with the same configuration skips the wrap entirely, so
the two are not equivalent: they expose different identity metadata. -/
theorem claim_C5_equivalence_cex :
    queuedInit none true [] = .ok {} ∧
    queuedCall {} 0 [PyVal.func exFalsy] [] = .wrapped exFalsyDeferred ∧
    queuedInit (some (PyVal.func exFalsy)) true [] = .ok exFalsyDirect ∧
    exFalsyDeferred.wrapperName = some "f0" ∧
    exFalsyDirect.wrapperName = none ∧
    exFalsyDeferred ≠ exFalsyDirect :=
  ⟨rfl, by decide, rfl, rfl, rfl, by decide⟩

/-- Amended C5: for every truthy callable (in particular every plain
function) the deferred wrap call yields exactly the decorator state of
direct decoration with the same configuration, in both the fire-and-forget
and the queued families; only a falsy callable separates the two paths. -/
theorem claim_C5_deferred_equivalence (daemon : Bool) (opts : Kwargs)
    (v : PyVal) (ht : truthy v = true) :
    asyncCall (asyncInit none daemon opts) [v] [] =
      .wrapped (asyncInit (some v) daemon opts) ∧
    ∀ cnt, queuedCall { function := none, daemon := daemon, opts := opts }
        cnt [v] [] =
      match queuedInit (some v) daemon opts with
      | .ok d2 => .wrapped d2
      | .error e => .error e := by
  constructor
  · simp [asyncInit, asyncCall, optTruthy, ht, baseWrap]
  · intro cnt
    cases v <;>
      simp_all [queuedCall, queuedInit, queuedWrap, getInsertionIndex,
        getargspec, optTruthy, truthy, baseWrap]

/-- Witness for the amended C5 at the plain function `f(a)`. -/
theorem claim_C5_deferred_equivalence_witness :
    truthy (PyVal.func exF) = true ∧
    asyncCall (asyncInit none true []) [PyVal.func exF] [] =
      .wrapped (asyncInit (some (PyVal.func exF)) true []) ∧
    queuedCall { function := none, daemon := true, opts := [] } 0
        [PyVal.func exF] [] =
      match queuedInit (some (PyVal.func exF)) true [] with
      | .ok d2 => .wrapped d2
      | .error e => .error e :=
  ⟨rfl, (claim_C5_deferred_equivalence true [] (PyVal.func exF) rfl).1,
   (claim_C5_deferred_equivalence true [] (PyVal.func exF) rfl).2 0⟩

/-- Counterexample to claim C6: the fire-and-forget configuration-only
wrapper, invoked with the single non-callable argument `42`, fails with
nothing — the base `__wrap__` performs no callability check, so `42` is
silently accepted and wrapped. -/
theorem claim_C6_noncallable_cex :
    isCallable (PyVal.int 42) = false ∧
    asyncCall (asyncInit none true []) [PyVal.int 42] [] =
      .wrapped { function := some (PyVal.int 42), daemon := true, opts := [],
                 queueIdx := none, wrapperName := none,
                 wrapperDoc := none } :=
  ⟨rfl, by decide⟩

/-- Amended C6: invoking a configuration-only wrapper with zero arguments
raises an immediate index error (`args[0]`) in every variant; a single
non-callable argument raises an immediate type error in the queued-result
and blocking variants (signature introspection fails), but the
fire-and-forget variant accepts and wraps it without any error. -/
theorem claim_C6_usage_errors (R : Runtime) (d : Deco) (cnt : Nat)
    (kwargs : Kwargs) (v : PyVal)
    (hd : d.function = none) (hv : isCallable v = false) :
    asyncCall d [] kwargs = .error .indexError ∧
    queuedCall d cnt [] kwargs = .error .indexError ∧
    blockingCall R d cnt [] kwargs = .error .indexError ∧
    queuedCall d cnt [v] kwargs = .error .typeError ∧
    blockingCall R d cnt [v] kwargs = .error .typeError ∧
    asyncCall d [v] kwargs = .wrapped (baseWrap d v) := by
  have hvv : getargspec v = .error .typeError := by
    cases v <;> first
      | rfl
      | simp [isCallable] at hv
  refine ⟨?_, ?_, ?_, ?_, ?_, ?_⟩ <;>
    simp [asyncCall, queuedCall, blockingCall, optTruthy, hd, queuedWrap,
          getInsertionIndex, hvv]

/-- Witness for the amended C6 at the non-callable `42`. -/
theorem claim_C6_usage_errors_witness :
    (({} : Deco)).function = none ∧ isCallable (PyVal.int 42) = false ∧
    asyncCall {} [] [] = .error .indexError ∧
    queuedCall {} 0 [PyVal.int 42] [] = .error .typeError ∧
    asyncCall {} [PyVal.int 42] [] =
      .wrapped (baseWrap {} (PyVal.int 42)) :=
  ⟨rfl, rfl,
   (claim_C6_usage_errors exRuntime {} 0 [] (PyVal.int 42) rfl rfl).1,
   (claim_C6_usage_errors exRuntime {} 0 [] (PyVal.int 42) rfl rfl).2.2.2.1,
   (claim_C6_usage_errors exRuntime {} 0 [] (PyVal.int 42) rfl rfl).2.2.2.2.2⟩

/-- Claim C7: attribute access on a decorated method through an instance
returns a partial application pre-binding that instance, so invoking it
from instance context dispatches the underlying callable with the instance
as first argument without the caller supplying it; unbound access returns
the wrapper itself (passthrough). -/
theorem claim_C7_descriptor (d : Deco) (inst : PyVal)
    (args : List PyVal) (kwargs : Kwargs)
    (hfun : optTruthy d.function = true) :
    dunderGet d none = .passthrough d ∧
    invokeBoundAsync (dunderGet d (some inst)) args kwargs =
      .dispatched { target := d.function, args := inst :: args,
                    kwargs := kwargs, daemon := d.daemon,
                    opts := d.opts } := by
  constructor
  · rfl
  · simp [invokeBoundAsync, dunderGet, asyncCall, hfun, asyncDispatch]

/-- The fire-and-forget wrapper around the method `m(self, a)`. -/
def exMAsync : Deco :=
  { function := some (PyVal.func exM), daemon := true, opts := [],
    queueIdx := none, wrapperName := some "m", wrapperDoc := some "method" }

/-- Witness for C7: accessing the wrapped `m` through instance `obj 7` and
calling it with one argument. -/
theorem claim_C7_descriptor_witness :
    optTruthy exMAsync.function = true ∧
    dunderGet exMAsync none = .passthrough exMAsync ∧
    invokeBoundAsync (dunderGet exMAsync (some (PyVal.obj 7)))
        [PyVal.int 1] [] =
      .dispatched { target := some (PyVal.func exM),
                    args := [PyVal.obj 7, PyVal.int 1], kwargs := [],
                    daemon := true, opts := [] } :=
  ⟨rfl,
   (claim_C7_descriptor exMAsync (PyVal.obj 7) [PyVal.int 1] [] rfl).1,
   by
    have h :=
      (claim_C7_descriptor exMAsync (PyVal.obj 7) [PyVal.int 1] [] rfl).2
    simpa [exMAsync] using h⟩

/-- Claim C8: after wrapping completes, the wrapper exposes the wrapped
callable's identity metadata — `update_wrapper` copies `__name__` and
`__doc__` onto the wrapper, for every callable and every prior wrapper
state. -/
theorem claim_C8_metadata (d : Deco) (f : PyFunc) :
    (baseWrap d (PyVal.func f)).wrapperName = some f.name ∧
    (baseWrap d (PyVal.func f)).wrapperDoc = some f.doc := by
  simp [baseWrap, pyName, pyDoc, Option.orElse]

/-- Claim C9: the dispatch-or-wrap decision of `__call__` is the boolean
truthiness of the stored callable, not whether one is set: a wrapper whose
stored callable is set but falsy does not dispatch — it wraps its first
argument as a new callable. -/
theorem claim_C9_falsy_rewrap (d : Deco) (v g : PyVal)
    (rest : List PyVal) (kwargs : Kwargs)
    (hf : d.function = some v) (ht : truthy v = false) :
    asyncCall d (g :: rest) kwargs = .wrapped (baseWrap d g) := by
  simp [asyncCall, optTruthy, hf, ht]

/-- Witness for C9: a wrapper storing the falsy callable `f0` wraps the
plain function `f` instead of dispatching. -/
theorem claim_C9_falsy_rewrap_witness :
    exFalsyDirect.function = some (PyVal.func exFalsy) ∧
    truthy (PyVal.func exFalsy) = false ∧
    asyncCall exFalsyDirect [PyVal.func exF] [] =
      .wrapped (baseWrap exFalsyDirect (PyVal.func exF)) :=
  ⟨rfl, rfl,
   claim_C9_falsy_rewrap exFalsyDirect (PyVal.func exFalsy) (PyVal.func exF)
     [] [] rfl rfl⟩

/-- The fire-and-forget factory state after its deferred wrap of the falsy
callable `exFalsy`. -/
def exFalsyAsyncWrapped : Deco :=
  { function := some (PyVal.func exFalsy), daemon := true, opts := [],
    queueIdx := none, wrapperName := some "f0", wrapperDoc := some "falsy" }

/-- Counterexample to claim C10: a configured factory can wrap more than
one callable.  After the deferred wrap of the falsy callable `f0`, the
next invocation wraps the plain function `f` — a second wrap — instead of
dispatching the already-wrapped callable. -/
theorem claim_C10_single_wrap_cex :
    asyncCall (asyncInit none true []) [PyVal.func exFalsy] [] =
      .wrapped exFalsyAsyncWrapped ∧
    asyncCall exFalsyAsyncWrapped [PyVal.func exF] [] =
      .wrapped { function := some (PyVal.func exF), daemon := true,
                 opts := [], queueIdx := none, wrapperName := some "f",
                 wrapperDoc := some "plain" } :=
  ⟨by decide, by decide⟩

/-- Amended C10: the deferred wrap call returns the factory's own state
updated in place — the wrapped callable stored with the factory's
configuration intact — and for a truthy wrapped callable every subsequent
invocation dispatches it instead of wrapping; only a falsy wrapped
callable makes the factory wrap again. -/
theorem claim_C10_wrap_returns_self (d : Deco) (v : PyVal)
    (args : List PyVal) (kwargs kwargs2 : Kwargs)
    (hd : d.function = none) (ht : truthy v = true) :
    asyncCall d [v] kwargs = .wrapped (baseWrap d v) ∧
    (baseWrap d v).daemon = d.daemon ∧ (baseWrap d v).opts = d.opts ∧
    asyncCall (baseWrap d v) args kwargs2 =
      .dispatched { target := some v, args := args, kwargs := kwargs2,
                    daemon := d.daemon, opts := d.opts } := by
  refine ⟨?_, rfl, rfl, ?_⟩
  · simp [asyncCall, optTruthy, hd]
  · simp [asyncCall, optTruthy, baseWrap, ht, asyncDispatch]

/-- Witness for the amended C10 at the plain function `f(a)`. -/
theorem claim_C10_wrap_returns_self_witness :
    (({} : Deco)).function = none ∧ truthy (PyVal.func exF) = true ∧
    asyncCall {} [PyVal.func exF] [] =
      .wrapped (baseWrap {} (PyVal.func exF)) ∧
    asyncCall (baseWrap {} (PyVal.func exF)) [PyVal.int 1] [] =
      .dispatched { target := some (PyVal.func exF), args := [PyVal.int 1],
                    kwargs := [], daemon := true, opts := [] } :=
  ⟨rfl, rfl,
   (claim_C10_wrap_returns_self {} (PyVal.func exF) [PyVal.int 1] [] []
     rfl rfl).1,
   (claim_C10_wrap_returns_self {} (PyVal.func exF) [PyVal.int 1] [] []
     rfl rfl).2.2.2⟩
